import Mathlib

/-!
Shallow embedding of streamlit_app.py (the item-detection demo app).

The first-party logic of the program is the YOLOProcessor class: lazy
one-time model construction (_load_model_once), the per-frame callback
(recv) that optionally runs inference and annotates the frame, the
label-map lookup with stringified-id fallback, the caption string, and
the text-anchor clamping.  External collaborators (the ultralytics model,
OpenCV rasterization, the WebRTC transport) are modelled at their
interface: drawing calls are recorded as operations on the image, and the
model's predict is modelled from its documented contract.
-/

namespace ItemDetection

/-- A pixel, three colour channels (the code uses bgr24 frames). -/
abbrev Pixel := ℕ × ℕ × ℕ

/-- One drawing call issued against an image buffer.  cv2.rectangle and
cv2.putText mutate the pixel buffer in place; the embedding records each
call with all its arguments, leaving rasterization to the external library.
An image is unchanged pixel-for-pixel iff its pixel grid and its recorded
operation list are unchanged. -/
inductive DrawOp where
  | rect : ℤ × ℤ → ℤ × ℤ → Pixel → ℕ → DrawOp
  | text : String → ℤ × ℤ → ℕ → ℚ → Pixel → ℕ → ℕ → DrawOp
  deriving DecidableEq, Repr

/-- An image buffer (img in recv): the decoded pixel grid plus the
drawing operations applied to it so far. -/
structure Img where
  pixels : List (List Pixel)
  ops : List DrawOp
  deriving DecidableEq, Repr

/-- cv2.FONT_HERSHEY_SIMPLEX (OpenCV constant 0). -/
def FONT_HERSHEY_SIMPLEX : ℕ := 0

/-- cv2.LINE_AA (OpenCV constant 16). -/
def LINE_AA : ℕ := 16

/-- cv2.rectangle(img, p1, p2, color, thickness): records the call. -/
def cvRectangle (img : Img) (p1 p2 : ℤ × ℤ) (color : Pixel) (thickness : ℕ) : Img :=
  { img with ops := img.ops ++ [DrawOp.rect p1 p2 color thickness] }

/-- cv2.putText(img, s, org, font, scale, color, thickness, lineType):
records the call. -/
def cvPutText (img : Img) (s : String) (org : ℤ × ℤ) (font : ℕ) (scale : ℚ)
    (color : Pixel) (thickness : ℕ) (lineType : ℕ) : Img :=
  { img with ops := img.ops ++ [DrawOp.text s org font scale color thickness lineType] }

/-- An av.VideoFrame carrying a bgr24 image. -/
structure Frame where
  img : Img
  deriving DecidableEq, Repr

/-- frame.to_ndarray(format="bgr24"). -/
def Frame.to_ndarray (f : Frame) : Img := f.img

/-- av.VideoFrame.from_ndarray(img, format="bgr24"). -/
def Frame.from_ndarray (img : Img) : Frame := ⟨img⟩

/-- The dynamic self.names value.  In the source it is whatever
model.names is: the code branches on isinstance(names, dict), then on
isinstance(names, (list, tuple)), and otherwise (including None, the
initial value of the field) falls through to str(cls_id).  other
covers every non-dict, non-sequence value. -/
inductive Names where
  | dict : List (ℤ × String) → Names
  | seq : List String → Names
  | other : Names
  deriving DecidableEq, Repr

/-- Lines 85-87 of streamlit_app.py:
self.names.get(cls_id, str(cls_id)) if isinstance(self.names, dict) else (
  self.names[cls_id] if isinstance(self.names, (list, tuple)) and 0 <= cls_id < len(self.names)
  else str(cls_id)). -/
def lookupLabel (names : Names) (cls_id : ℤ) : String :=
  match names with
  | .dict m => (m.lookup cls_id).getD (toString cls_id)
  | .seq l =>
      if h : 0 ≤ cls_id ∧ cls_id < l.length then
        l.get ⟨cls_id.toNat, by omega⟩
      else toString cls_id
  | .other => toString cls_id

/-- Whether the label map has an entry for a class id: the dict has the key,
or the id indexes into the sequence.  When this is false, the source's
lookup expression takes its stringified-id fallback branch. -/
def hasEntry (names : Names) (cls_id : ℤ) : Bool :=
  match names with
  | .dict m => (m.lookup cls_id).isSome
  | .seq l => decide (0 ≤ cls_id ∧ cls_id < l.length)
  | .other => false

/-- One predicted box from the model (box in the loop of recv):
box.xyxy[0] cast to int, box.conf possibly absent, box.cls possibly
absent (the code guards both against None). -/
structure RawBox where
  xyxy : ℤ × ℤ × ℤ × ℤ
  conf : Option ℚ
  cls : Option ℤ
  deriving DecidableEq, Repr

/-- results[0] of a predict call: res.boxes may be None. -/
structure Results where
  boxes : Option (List RawBox)
  deriving DecidableEq, Repr

/-- The underlying YOLO model: its label map names and, as an oracle,
the raw detections it finds in an image before threshold filtering. -/
structure Model where
  names : Names
  raw : Img → Option (List RawBox)

/-- Modelled from the spec: self.model.predict(img, conf=threshold) is
performed by the external ultralytics library, not by this repository.
Per the spec, filtering "is delegated to the underlying model's predict
operation": predict keeps, in order, exactly the raw detections whose
confidence is at or above conf (reading an absent confidence as 0, as
the caller does). -/
def Model.predict (m : Model) (img : Img) (conf : ℚ) : Results :=
  ⟨(m.raw img).map (List.filter (fun b => decide (conf ≤ b.conf.getD 0)))⟩

/-- Line 96 of streamlit_app.py: the text anchor passed to cv2.putText,
(x1, max(0, y1 - 8)). -/
def textOrg (x1 y1 : ℤ) : ℤ × ℤ := (x1, max 0 (y1 - 8))

/-- Python's fixed-point formatting :.0f restricted to exact rationals:
round to the nearest integer, ties to the even integer. -/
def fmtF0 (q : ℚ) : ℤ :=
  if q - ⌊q⌋ < 1/2 then ⌊q⌋
  else if 1/2 < q - ⌊q⌋ then ⌊q⌋ + 1
  else if ⌊q⌋ % 2 = 0 then ⌊q⌋ else ⌊q⌋ + 1

/-- Line 92 of streamlit_app.py: caption = f"{label} {conf*100:.0f}%". -/
def caption (label : String) (conf : ℚ) : String :=
  label ++ " " ++ toString (fmtF0 (conf * 100)) ++ "%"

/-- The fixed accent colour of line 90, BGR (199, 132, 2). -/
def accentColor : Pixel := (199, 132, 2)

/-- The body of the per-box loop, lines 82-102: read the box fields with
their None guards, look up the label, draw the 2-px rectangle, then draw
the caption at the clamped anchor. -/
def drawBox (names : Names) (img : Img) (box : RawBox) : Img :=
  match box.xyxy with
  | (x1, y1, x2, y2) =>
    let conf : ℚ := box.conf.getD 0
    let cls_id : ℤ := box.cls.getD (-1)
    let label := lookupLabel names cls_id
    let img := cvRectangle img (x1, y1) (x2, y2) accentColor 2
    cvPutText img (caption label conf) (textOrg x1 y1) FONT_HERSHEY_SIMPLEX (3/5)
      accentColor 2 LINE_AA

/-- Lines 80-102: if res.boxes is not None and len(res.boxes) > 0: then
the per-box loop over res.boxes, mutating img. -/
def annotate (img : Img) (names : Names) (res : Results) : Img :=
  match res.boxes with
  | some boxes => if 0 < boxes.length then boxes.foldl (drawBox names) img else img
  | none => img

/-- The mutable state of a YOLOProcessor instance. -/
structure ProcState where
  model : Option Model
  names : Names
  confidence_threshold : ℚ
  enable : Bool

/-- YOLOProcessor.__init__: model = None, names = None (a non-dict,
non-sequence value), confidence_threshold = 0.25, enable = True. -/
def ProcState.init : ProcState :=
  { model := none, names := Names.other, confidence_threshold := 1/4, enable := true }

/-- _load_model_once (lines 59-66), sequentially: if model is None,
construct the model (yolo stands for the instance YOLO("yolov8n.pt")
would build) and store it together with its names.  Returns the updated
state, the model the caller will subsequently read from self.model, and
the number of constructions performed (1 on the loading call, 0 otherwise). -/
def load_model_once (yolo : Model) (s : ProcState) : ProcState × Model × ℕ :=
  match s.model with
  | none => ({ s with model := some yolo, names := yolo.names }, yolo, 1)
  | some m => (s, m, 0)

/-- The outcome of one recv call: the processor state after the call, the
returned frame, and instrumentation counting model constructions and
inference (predict) calls made during the call. -/
structure RecvOut where
  state : ProcState
  frame : Frame
  loads : ℕ
  inferences : ℕ

/-- recv (lines 68-104): decode the frame; if enable is false return it
unchanged; otherwise load the model once, run predict at the current
threshold, annotate, and re-encode. -/
def recv (yolo : Model) (s : ProcState) (f : Frame) : RecvOut :=
  let img := f.to_ndarray
  if s.enable = false then
    ⟨s, Frame.from_ndarray img, 0, 0⟩
  else
    let L := load_model_once yolo s
    let s1 := L.1
    let m := L.2.1
    let res := m.predict img s1.confidence_threshold
    ⟨s1, Frame.from_ndarray (annotate img s1.names res), L.2.2, 1⟩

/-- One admissible value of the confidence slider of line 44:
st.slider(min_value=0.1, max_value=0.9, step=0.05) offers
0.1 + k * 0.05 for k = 0, 1, ... up to the maximum. -/
def sliderVal (k : ℕ) : ℚ := 1/10 + k * (1/20)

/-- The states a YOLOProcessor can reach: start at __init__, then any
interleaving of frame callbacks (recv) and the UI writes of lines
122-123, which assign enable from the toggle and confidence_threshold
from the slider (whose values the slider constrains to its range). -/
inductive Reachable (yolo : Model) : ProcState → Prop where
  | init : Reachable yolo ProcState.init
  | frame (s : ProcState) (f : Frame) :
      Reachable yolo s → Reachable yolo (recv yolo s f).state
  | set_threshold (s : ProcState) (k : ℕ) :
      Reachable yolo s → sliderVal k ≤ 9/10 →
      Reachable yolo { s with confidence_threshold := sliderVal k }
  | set_enable (s : ProcState) (b : Bool) :
      Reachable yolo s → Reachable yolo { s with enable := b }

/-- A concrete model used to instantiate hypotheses: label map mapping
class id 0 to "person", finding one detection with confidence 0.83 at box
(50,60)-(200,220) in every image. -/
def demoModel : Model :=
  { names := Names.dict [(0, "person")],
    raw := fun _ => some [⟨(50, 60, 200, 220), some (83/100), some 0⟩] }

/-- A concrete 1×1 image with no drawing operations. -/
def demoImg : Img := ⟨[[(0, 0, 0)]], []⟩


/-! ## Helper lemmas -/

/-- When the label map has no entry for an id, the source's lookup
expression returns the stringified id. -/
theorem lookupLabel_fallback (names : Names) (i : ℤ) (h : hasEntry names i = false) :
    lookupLabel names i = toString i := by
  cases names with
  | dict m =>
      cases hl : m.lookup i with
      | none => simp [lookupLabel, hl]
      | some v => rw [hasEntry, hl] at h; simp at h
  | seq l =>
      rw [hasEntry] at h
      rw [lookupLabel, dif_neg (of_decide_eq_false h)]
  | other => rfl

/-- fmtF0 rounds to a nearest integer: its result is within 1/2 of its
argument. -/
theorem fmtF0_nearest (q : ℚ) : |(fmtF0 q : ℚ) - q| ≤ 1/2 := by
  have h0 : (⌊q⌋ : ℚ) ≤ q := Int.floor_le q
  have h1 : q < ⌊q⌋ + 1 := Int.lt_floor_add_one q
  rw [fmtF0]
  split_ifs with hr1 hr2 hpar <;>
    (rw [abs_le]; push_cast; constructor <;> linarith)

/-- recv never changes the confidence threshold field. -/
theorem recv_threshold_eq (yolo : Model) (s : ProcState) (f : Frame) :
    (recv yolo s f).state.confidence_threshold = s.confidence_threshold := by
  by_cases h : s.enable = false
  · simp [recv, h]
  · cases hm : s.model <;> simp [recv, h, load_model_once, hm]

/-! ## Claims -/

/-- C1: if the enabled flag is false when the per-frame callback runs, the
callback returns a frame pixel-identical to its decoded input (the very
same image buffer, no drawing operations added), performs zero inference
calls, and neither loads nor invokes the detector; the state, including
the threshold, is untouched, and this holds for every threshold value. -/
theorem recv_disabled (yolo : Model) (s : ProcState) (f : Frame)
    (h : s.enable = false) :
    recv yolo s f = ⟨s, f, 0, 0⟩ := by
  simp [recv, h, Frame.from_ndarray, Frame.to_ndarray]

theorem recv_disabled_witness :
    ({ ProcState.init with enable := false } : ProcState).enable = false ∧
    recv demoModel { ProcState.init with enable := false } (Frame.from_ndarray demoImg) =
      ⟨{ ProcState.init with enable := false }, Frame.from_ndarray demoImg, 0, 0⟩ :=
  ⟨rfl, recv_disabled demoModel { ProcState.init with enable := false }
    (Frame.from_ndarray demoImg) rfl⟩

/-- C2: for every image and threshold t in [0.10, 0.90], predict returns
only detections with confidence at least t, as a subsequence of the raw
model output (order preserved, no re-sorting), and zero raw detections
yield an empty sequence rather than an error. -/
theorem predict_filters (m : Model) (img : Img) (t : ℚ)
    (ht : 1/10 ≤ t ∧ t ≤ 9/10) :
    (∀ bs, (m.predict img t).boxes = some bs →
      (∀ b ∈ bs, t ≤ b.conf.getD 0) ∧
      ∀ rs, m.raw img = some rs → bs.Sublist rs) ∧
    (m.raw img = some [] → (m.predict img t).boxes = some []) := by
  constructor
  · intro bs hbs
    cases hraw : m.raw img with
    | none => simp [Model.predict, hraw] at hbs
    | some rs0 =>
        simp only [Model.predict, hraw, Option.map_some', Option.some.injEq] at hbs
        constructor
        · intro b hb
          rw [← hbs] at hb
          exact of_decide_eq_true (List.mem_filter.mp hb).2
        · intro rs hrs
          obtain rfl : rs0 = rs := Option.some.inj hrs
          rw [← hbs]
          exact List.filter_sublist rs0
  · intro h
    simp [Model.predict, h]

theorem predict_filters_witness :
    ((1:ℚ)/10 ≤ 1/4 ∧ (1:ℚ)/4 ≤ 9/10) ∧
    ((∀ bs, (demoModel.predict demoImg (1/4)).boxes = some bs →
      (∀ b ∈ bs, 1/4 ≤ b.conf.getD 0) ∧
      ∀ rs, demoModel.raw demoImg = some rs → bs.Sublist rs) ∧
    (demoModel.raw demoImg = some [] →
      (demoModel.predict demoImg (1/4)).boxes = some [])) :=
  ⟨by norm_num, predict_filters demoModel demoImg (1/4) (by norm_num)⟩

/-- C3: model construction is lazy, idempotent and exactly-once.  From an
unloaded state, loading constructs exactly one instance and a second load
is a no-op; the Uninitialized-to-Ready transition happens on the first
enabled frame callback with exactly one construction; and once the model
field is set, no frame callback resets it to None or constructs again. -/
theorem load_model_once_exactly_once (yolo : Model) (s : ProcState) (f f2 : Frame)
    (h0 : s.model = none) (he : s.enable = true) :
    (load_model_once yolo s).2.2 = 1 ∧
    load_model_once yolo (load_model_once yolo s).1 = ((load_model_once yolo s).1, yolo, 0) ∧
    (recv yolo s f).state.model = some yolo ∧
    (recv yolo s f).loads = 1 ∧
    (∀ s2 : ProcState, s2.model.isSome = true →
      (recv yolo s2 f2).state.model = s2.model ∧ (recv yolo s2 f2).loads = 0) := by
  refine ⟨?_, ?_, ?_, ?_, ?_⟩
  · simp [load_model_once, h0]
  · simp [load_model_once, h0]
  · simp [recv, he, load_model_once, h0]
  · simp [recv, he, load_model_once, h0]
  · intro s2 h2
    obtain ⟨m, hm⟩ := Option.isSome_iff_exists.mp h2
    by_cases hen : s2.enable = false
    · simp [recv, hen]
    · simp [recv, hen, load_model_once, hm]

theorem load_model_once_exactly_once_witness :
    ProcState.init.model = none ∧ ProcState.init.enable = true ∧
    ((load_model_once demoModel ProcState.init).2.2 = 1 ∧
    load_model_once demoModel (load_model_once demoModel ProcState.init).1 =
      ((load_model_once demoModel ProcState.init).1, demoModel, 0) ∧
    (recv demoModel ProcState.init (Frame.from_ndarray demoImg)).state.model = some demoModel ∧
    (recv demoModel ProcState.init (Frame.from_ndarray demoImg)).loads = 1 ∧
    (∀ s2 : ProcState, s2.model.isSome = true →
      (recv demoModel s2 (Frame.from_ndarray demoImg)).state.model = s2.model ∧
      (recv demoModel s2 (Frame.from_ndarray demoImg)).loads = 0)) :=
  ⟨rfl, rfl, load_model_once_exactly_once demoModel ProcState.init
    (Frame.from_ndarray demoImg) (Frame.from_ndarray demoImg) rfl rfl⟩

/-- C4: the caption drawn for a detection is the label, a space, the
confidence times 100 rounded to a nearest integer, and a percent sign;
label "person" with confidence 0.83 yields exactly "person 83%". -/
theorem caption_format :
    (∀ (label : String) (conf : ℚ), ∃ n : ℤ,
      caption label conf = label ++ " " ++ toString n ++ "%" ∧
      |(n : ℚ) - conf * 100| ≤ 1/2) ∧
    caption "person" (83/100) = "person 83%" := by
  constructor
  · intro label conf
    exact ⟨fmtF0 (conf * 100), rfl, fmtF0_nearest (conf * 100)⟩
  · have h : fmtF0 (83/100 * 100 : ℚ) = 83 := by norm_num [fmtF0]
    rw [caption, h]
    rfl

/-- C5 counterexample: the x-coordinate of the text anchor is not clamped;
for a box with x1 = -5 and y1 = 60 the caption is drawn at x = -5 < 0
(while the y-coordinate is clamped), so the claim that both anchor
coordinates are clamped to non-negative values fails on the code. -/
theorem textOrg_x_unclamped :
    (textOrg (-5) 60).1 = -5 ∧ (textOrg (-5) 60).1 < 0 ∧
    (drawBox Names.other demoImg ⟨(-5, 60, 10, 80), some (1/2), some 0⟩).ops =
      demoImg.ops ++ [DrawOp.rect (-5, 60) (10, 80) accentColor 2,
        DrawOp.text (caption "0" (1/2)) (-5, 52) FONT_HERSHEY_SIMPLEX (3/5)
          accentColor 2 LINE_AA] := by
  refine ⟨rfl, by decide, ?_⟩
  have h0 : toString (0 : ℤ) = "0" := by decide
  simp [drawBox, cvRectangle, cvPutText, textOrg, lookupLabel, h0]

/-- C5 amended: of the two box coordinates used as the text anchor, only
the y-coordinate is clamped to a non-negative value before the caption is
drawn; the x-coordinate is the box's x1, passed through unchanged. -/
theorem textOrg_y_only_clamped (x1 y1 : ℤ) :
    (textOrg x1 y1).1 = x1 ∧ (textOrg x1 y1).2 = max 0 (y1 - 8) ∧
    0 ≤ (textOrg x1 y1).2 :=
  ⟨rfl, rfl, le_max_left 0 (y1 - 8)⟩

/-- C6: the caption is drawn at vertical position box-top minus 8 pixels,
clamped to be non-negative: for y1 = 60 the anchor y is 52, for y1 = 0 it
is 0, and the anchor drawBox passes to the text call is exactly textOrg
applied to the box's top-left corner. -/
theorem caption_y_position (x1 y1 : ℤ) (names : Names) (img : Img) (b : RawBox) :
    (8 ≤ y1 → (textOrg x1 y1).2 = y1 - 8) ∧
    0 ≤ (textOrg x1 y1).2 ∧
    (textOrg x1 60).2 = 52 ∧
    (textOrg x1 0).2 = 0 ∧
    (∃ cap rop, (drawBox names img b).ops = img.ops ++
      [rop, DrawOp.text cap (textOrg b.xyxy.1 b.xyxy.2.1) FONT_HERSHEY_SIMPLEX (3/5)
        accentColor 2 LINE_AA]) := by
  refine ⟨fun h => ?_, le_max_left 0 (y1 - 8), ?_, ?_, ?_⟩
  · simp only [textOrg]
    omega
  · simp [textOrg]
  · simp [textOrg]
  · obtain ⟨⟨u, v, w, z⟩, bconf, bcls⟩ := b
    exact ⟨caption (lookupLabel names (bcls.getD (-1))) (bconf.getD 0),
      DrawOp.rect (u, v) (w, z) accentColor 2,
      by simp [drawBox, cvRectangle, cvPutText]⟩

theorem caption_y_position_witness :
    (textOrg 50 60).2 = 60 - 8 ∧ 0 ≤ (textOrg 50 0).2 :=
  ⟨(caption_y_position 50 60 Names.other demoImg ⟨(0, 0, 0, 0), none, none⟩).1
      (by decide),
   (caption_y_position 50 0 Names.other demoImg ⟨(0, 0, 0, 0), none, none⟩).2.1⟩

/-- C7: when the detection result holds zero qualifying detections (boxes
absent or an empty list), the annotation step returns the image unchanged
pixel-for-pixel: the very same buffer, with no rectangle or text drawn. -/
theorem annotate_unchanged (img : Img) (names : Names) (res : Results)
    (h : res.boxes = none ∨ res.boxes = some []) :
    annotate img names res = img := by
  rcases h with h | h <;> simp [annotate, h]

theorem annotate_unchanged_witness :
    ((⟨some []⟩ : Results).boxes = none ∨ (⟨some []⟩ : Results).boxes = some []) ∧
    annotate demoImg Names.other ⟨some []⟩ = demoImg :=
  ⟨Or.inr rfl, annotate_unchanged demoImg Names.other ⟨some []⟩ (Or.inr rfl)⟩

/-- C8: when the label-map lookup fails for a class id (absent from the
dict, or out of range of the sequence), the label is the stringified id
and no error is raised; every caption built from it begins with the
stringified id, and id 999 yields label "999". -/
theorem lookup_miss_fallback (names : Names) (i : ℤ)
    (h : hasEntry names i = false) :
    lookupLabel names i = toString i ∧
    (∀ c : ℚ, ∃ rest, caption (lookupLabel names i) c = toString i ++ rest) ∧
    (i = 999 → lookupLabel names i = "999") := by
  have key : lookupLabel names i = toString i := lookupLabel_fallback names i h
  refine ⟨key, fun c => ⟨" " ++ toString (fmtF0 (c * 100)) ++ "%", ?_⟩, fun hi => ?_⟩
  · rw [caption, key]
    simp [String.append_assoc]
  · subst hi
    rw [key]
    rfl

theorem lookup_miss_fallback_witness :
    hasEntry (Names.dict [(0, "person")]) 999 = false ∧
    (lookupLabel (Names.dict [(0, "person")]) 999 = toString (999 : ℤ) ∧
    (∀ c : ℚ, ∃ rest,
      caption (lookupLabel (Names.dict [(0, "person")]) 999) c = toString (999 : ℤ) ++ rest) ∧
    ((999 : ℤ) = 999 → lookupLabel (Names.dict [(0, "person")]) 999 = "999")) :=
  ⟨by decide, lookup_miss_fallback (Names.dict [(0, "person")]) 999 (by decide)⟩

/-- C9: in every reachable processor state, the confidence threshold lies
in [0.1, 0.9]: the processor starts at 0.25 and the only writes come from
the slider, whose values are 0.1 + k * 0.05 bounded by 0.9. -/
theorem reachable_threshold_in_range (yolo : Model) (s : ProcState)
    (h : Reachable yolo s) :
    1/10 ≤ s.confidence_threshold ∧ s.confidence_threshold ≤ 9/10 := by
  induction h with
  | init => exact ⟨by norm_num [ProcState.init], by norm_num [ProcState.init]⟩
  | frame s f hs ih => rwa [recv_threshold_eq]
  | set_threshold s k hs hk ih =>
      refine ⟨?_, hk⟩
      have hnn : (0 : ℚ) ≤ (k : ℚ) * (1/20) := by positivity
      simp only [sliderVal]
      linarith
  | set_enable s b hs ih => exact ih

theorem reachable_threshold_in_range_witness :
    1/10 ≤ ProcState.init.confidence_threshold ∧
    ProcState.init.confidence_threshold ≤ 9/10 :=
  reachable_threshold_in_range demoModel ProcState.init Reachable.init

/-- C10: for a detection box whose confidence field is absent the caption
uses confidence 0 (it reads "... 0%"), and for a box whose class field is
absent the class id used is -1, which takes the stringified-id fallback,
so the label is "-1"; the drawing step is a total function of the box, so
neither absence raises an error. -/
theorem absent_fields_defaults (names : Names) (img : Img) (b : RawBox)
    (hc : b.conf = none) (hk : b.cls = none) (hn : hasEntry names (-1) = false) :
    (drawBox names img b).ops = img.ops ++
      [DrawOp.rect (b.xyxy.1, b.xyxy.2.1) (b.xyxy.2.2.1, b.xyxy.2.2.2) accentColor 2,
       DrawOp.text (caption "-1" 0) (textOrg b.xyxy.1 b.xyxy.2.1) FONT_HERSHEY_SIMPLEX (3/5)
         accentColor 2 LINE_AA] ∧
    caption "-1" 0 = "-1 0%" := by
  have hm1 : toString (-1 : ℤ) = "-1" := by decide
  have hlabel : lookupLabel names (-1) = "-1" :=
    (lookupLabel_fallback names (-1) hn).trans hm1
  constructor
  · obtain ⟨⟨u, v, w, z⟩, bconf, bcls⟩ := b
    simp only at hc hk
    subst hc
    subst hk
    simp [drawBox, cvRectangle, cvPutText, hlabel]
  · have h : fmtF0 ((0 : ℚ) * 100) = 0 := by norm_num [fmtF0]
    rw [caption, h]
    rfl

theorem absent_fields_defaults_witness :
    (⟨(1, 2, 3, 4), none, none⟩ : RawBox).conf = none ∧
    (⟨(1, 2, 3, 4), none, none⟩ : RawBox).cls = none ∧
    hasEntry (Names.seq ["person"]) (-1) = false ∧
    ((drawBox (Names.seq ["person"]) demoImg ⟨(1, 2, 3, 4), none, none⟩).ops =
      demoImg.ops ++
        [DrawOp.rect ((⟨(1, 2, 3, 4), none, none⟩ : RawBox).xyxy.1,
            (⟨(1, 2, 3, 4), none, none⟩ : RawBox).xyxy.2.1)
          ((⟨(1, 2, 3, 4), none, none⟩ : RawBox).xyxy.2.2.1,
            (⟨(1, 2, 3, 4), none, none⟩ : RawBox).xyxy.2.2.2) accentColor 2,
         DrawOp.text (caption "-1" 0)
          (textOrg (⟨(1, 2, 3, 4), none, none⟩ : RawBox).xyxy.1
            (⟨(1, 2, 3, 4), none, none⟩ : RawBox).xyxy.2.1)
          FONT_HERSHEY_SIMPLEX (3/5) accentColor 2 LINE_AA] ∧
     caption "-1" 0 = "-1 0%") :=
  ⟨rfl, rfl, by decide,
   absent_fields_defaults (Names.seq ["person"]) demoImg ⟨(1, 2, 3, 4), none, none⟩
     rfl rfl (by decide)⟩

end ItemDetection
